import Mathlib

/-!
# Gravity example of Cyantities: three traversal styles of one kernel

Shallow embedding of `examples/gravity/gravity.cpp`.  The three kernels
`compute_gravitational_force_rac`, `compute_gravitational_force_iter` and
`compute_gravitational_force_index` are translated statement by statement.
The class `cyantities::QuantityWrapper` they call into is declared in
`cyantities/quantitywrap.hpp`; its operations are modelled here from the
specification of the dimensioned buffer.

Conventions of the embedding.

* Magnitudes are `double` in the source.  The embedding is generic in the
  magnitude type `R` and only uses its multiplication and division, without
  assuming any law about them, so every statement made for all `R` holds for
  whatever the machine arithmetic computes.  A statement that needs exact
  arithmetic names the law it needs as a hypothesis.
* A C++ exception is an `Except.error`; since a kernel mutates `F` in place,
  a kernel returns an `Outcome`: the result, the final state of `F`, and the
  list of indices of `F` it has written, in the order of the writes.
* `m`, `g` and `F` are distinct values: the kernels are not modelled on
  aliasing buffers.
-/

namespace cyantities

/-- Dimension signature: the integer exponents over the SI base dimensions. -/
structure Dimension where
  mass : Int
  length : Int
  time : Int
  current : Int
  temperature : Int
  amount : Int
  luminous_intensity : Int
deriving DecidableEq, Repr

/-- Product of two dimensions: the exponents add. -/
def Dimension.mul (a b : Dimension) : Dimension :=
  { mass := a.mass + b.mass
    length := a.length + b.length
    time := a.time + b.time
    current := a.current + b.current
    temperature := a.temperature + b.temperature
    amount := a.amount + b.amount
    luminous_intensity := a.luminous_intensity + b.luminous_intensity }

namespace si

/-- Dimension of `boost::units::si::mass`. -/
def mass : Dimension := ⟨1, 0, 0, 0, 0, 0, 0⟩

/-- Dimension of `boost::units::si::length`. -/
def length : Dimension := ⟨0, 1, 0, 0, 0, 0, 0⟩

/-- Dimension of `boost::units::si::acceleration`. -/
def acceleration : Dimension := ⟨0, 1, -2, 0, 0, 0, 0⟩

/-- Dimension of `boost::units::si::force`. -/
def force : Dimension := ⟨1, 1, -2, 0, 0, 0, 0⟩

end si

/-- Modelled from the spec: the dimensioned scalar (`boost::units::quantity`),
a raw magnitude in canonical SI units with a compile-time dimension tag. -/
structure Quantity (R : Type) (d : Dimension) where
  value : R
deriving DecidableEq, Repr

/-- Modelled from the spec: multiplication of dimensioned scalars; the
magnitudes are multiplied and the result is tagged with the product
dimension. -/
def Quantity.mul {R : Type} [Mul R] {d e : Dimension}
    (a : Quantity R d) (b : Quantity R e) : Quantity R (Dimension.mul d e) :=
  ⟨a.value * b.value⟩

/-- Modelled from the spec: the unit descriptor of a buffer, a scale factor
from stored magnitudes to canonical units and a dimension signature. -/
structure UnitDescriptor (R : Type) where
  scale : R
  dimension : Dimension
deriving DecidableEq, Repr

/-- Modelled from the spec: `cyantities::QuantityWrapper`, a view of `N`
stored magnitudes with a unit descriptor. -/
structure QuantityWrapper (R : Type) where
  data : List R
  unit : UnitDescriptor R
deriving DecidableEq, Repr

/-- The errors a kernel can raise.  `runtime_error` is what the kernels
themselves throw (with the message of the source); the other two are modelled
from the spec and raised by the buffer: a dimension mismatch carries the
offending index (`none` for a scalar read or the construction of a read
sequence) and both dimensions. -/
inductive Error where
  | runtime_error (what : String)
  | DimensionMismatch (index : Option Nat) (stored requested : Dimension)
  | OutOfRange
deriving DecidableEq, Repr

variable {R : Type}

/-- Modelled from the spec: `size()`, the element count. -/
def QuantityWrapper.size (q : QuantityWrapper R) : Nat :=
  q.data.length

/-- Modelled from the spec: the scalar read `get<D>()`, which interprets the
first stored magnitude under the stored unit; fails with a dimension mismatch
when the stored dimension differs from `D`. -/
def QuantityWrapper.get [Mul R] (d : Dimension) (q : QuantityWrapper R) :
    Except Error (Quantity R d) :=
  if q.unit.dimension ≠ d then
    .error (.DimensionMismatch none q.unit.dimension d)
  else
    match q.data[0]? with
    | none => .error .OutOfRange
    | some x => .ok ⟨x * q.unit.scale⟩

/-- Modelled from the spec: the indexed read `get<D>(i)` (`read_as<D>(i)`);
the magnitude is `raw[i] * scale`. -/
def QuantityWrapper.get_at [Mul R] (d : Dimension) (q : QuantityWrapper R) (i : Nat) :
    Except Error (Quantity R d) :=
  if q.unit.dimension ≠ d then
    .error (.DimensionMismatch (some i) q.unit.dimension d)
  else
    match q.data[i]? with
    | none => .error .OutOfRange
    | some x => .ok ⟨x * q.unit.scale⟩

/-- Modelled from the spec: the indexed write `set_element(i, q)`
(`write_element`); same dimension and range rules as the read, and the
magnitude is rescaled from canonical to the stored unit. -/
def QuantityWrapper.set_element [Div R] {d : Dimension} (q : QuantityWrapper R) (i : Nat)
    (v : Quantity R d) : Except Error (QuantityWrapper R) :=
  if q.unit.dimension ≠ d then
    .error (.DimensionMismatch (some i) q.unit.dimension d)
  else if i < q.size then
    .ok { q with data := q.data.set i (v.value / q.unit.scale) }
  else
    .error .OutOfRange

/-- Modelled from the spec: a read cursor of `const_iter<D>()`.  The cursor
is identified with the run of stored magnitudes from its position to the end
of the buffer, so the end cursor is the empty run. -/
structure ConstIterator (R : Type) (d : Dimension) where
  rest : List R
  scale : R
deriving DecidableEq, Repr

/-- Modelled from the spec: the lazy sequence returned by `const_iter<D>()`
(`forward_reader<D>()`), the elements in index order. -/
structure ConstIterable (R : Type) (d : Dimension) where
  data : List R
  scale : R
deriving DecidableEq, Repr

/-- Modelled from the spec: `const_iter<D>()`; the dimension is checked once,
when the sequence is constructed. -/
def QuantityWrapper.const_iter (d : Dimension) (q : QuantityWrapper R) :
    Except Error (ConstIterable R d) :=
  if q.unit.dimension ≠ d then
    .error (.DimensionMismatch none q.unit.dimension d)
  else
    .ok ⟨q.data, q.unit.scale⟩

/-- The cursor `begin()` of a read sequence. -/
def ConstIterable.begin {d : Dimension} (s : ConstIterable R d) : ConstIterator R d :=
  ⟨s.data, s.scale⟩

/-- The cursor `end()` of a read sequence (`end` is a keyword of Lean). -/
def ConstIterable.last {d : Dimension} (s : ConstIterable R d) : ConstIterator R d :=
  ⟨[], s.scale⟩

/-- Comparison `a != b` of two read cursors of one sequence: they differ iff
they stand at different positions, that is, have different runs left. -/
def ConstIterator.ne {d : Dimension} (a b : ConstIterator R d) : Bool :=
  a.rest.length != b.rest.length

/-- Dereference `*in` of a read cursor: the element under the cursor,
rescaled to canonical units. -/
def ConstIterator.deref [Mul R] {d : Dimension} (a : ConstIterator R d) :
    Except Error (Quantity R d) :=
  match a.rest with
  | [] => .error .OutOfRange
  | x :: _ => .ok ⟨x * a.scale⟩

/-- Increment `++in` of a read cursor. -/
def ConstIterator.next {d : Dimension} (a : ConstIterator R d) : ConstIterator R d :=
  ⟨a.rest.tail, a.scale⟩

/-- Modelled from the spec: a write cursor of `iter<D>()`
(`forward_writer<D>()`), a position in the storage of the buffer it was made
from, with the scale of that buffer. -/
structure Iterator (R : Type) (d : Dimension) where
  pos : Nat
  scale : R
deriving DecidableEq, Repr

/-- Modelled from the spec: the writable sequence returned by `iter<D>()`. -/
structure Iterable (R : Type) (d : Dimension) where
  scale : R
deriving DecidableEq, Repr

/-- Modelled from the spec: `iter<D>()` (`forward_writer<D>()`).  The spec
puts no dimension check on the construction of the write cursor: an
incompatible dimension of the output buffer fails "at the first offending
access", that is "at write", the first assignment through the cursor. -/
def QuantityWrapper.iter (d : Dimension) (q : QuantityWrapper R) : Iterable R d :=
  ⟨q.unit.scale⟩

/-- The cursor `begin()` of a writable sequence. -/
def Iterable.begin {d : Dimension} (s : Iterable R d) : Iterator R d :=
  ⟨0, s.scale⟩

/-- Assignment `*out = v` through a write cursor into the storage of `q`,
under the dimension and range rules of the indexed write: it fails with a
dimension mismatch, carrying the position of the cursor, when the stored
dimension differs from `D`; otherwise the magnitude is rescaled from
canonical to the stored unit. -/
def Iterator.assign [Div R] {d : Dimension} (out : Iterator R d) (q : QuantityWrapper R)
    (v : Quantity R d) : Except Error (QuantityWrapper R) :=
  if q.unit.dimension ≠ d then
    .error (.DimensionMismatch (some out.pos) q.unit.dimension d)
  else if out.pos < q.size then
    .ok { q with data := q.data.set out.pos (v.value / out.scale) }
  else
    .error .OutOfRange

/-- Increment `++out` of a write cursor. -/
def Iterator.next {d : Dimension} (out : Iterator R d) : Iterator R d :=
  ⟨out.pos + 1, out.scale⟩

end cyantities

open cyantities

/-- The typedef `Mass` of the source. -/
abbrev Mass (R : Type) := Quantity R si.mass

/-- The typedef `Acceleration` of the source. -/
abbrev Acceleration (R : Type) := Quantity R si.acceleration

/-- The typedef `Force` of the source. -/
abbrev Force (R : Type) := Quantity R si.force

/-- What a call of a kernel leaves behind: the result (success or the
exception), the state of `F`, and the indices of `F` written, in order. -/
structure Outcome (R : Type) where
  result : Except Error Unit
  F : QuantityWrapper R
  writes : List Nat

/-- The lambda `[g](const Mass& mi) -> Force { return mi * g; }` of the
pipeline variant.  The product of a mass and an acceleration has the
dimension of a force, which is what lets the body have the return type. -/
def transform_fn {R : Type} [Mul R] (g : Acceleration R) (mi : Mass R) : Force R :=
  Quantity.mul mi g

/-- The view `m.const_iter<Mass>() | std::ranges::views::transform(fn)`: a
lazy sequence whose cursor applies `fn` when it is dereferenced. -/
structure TransformView (R : Type) (d e : Dimension) where
  base : ConstIterable R d
  fn : Quantity R d → Quantity R e

/-- The loop of the standard algorithm `std::ranges::copy(view, result)`:
`for (; first != last; ++first, ++result) *result = *first;`
where `*first` on the cursor of a transform view is `fn(*base)`. -/
def ranges_copy_loop {R : Type} [Mul R] [Div R] {d e : Dimension} (fn : Quantity R d → Quantity R e)
    (last : ConstIterator R d) (first : ConstIterator R d) (result : Iterator R e)
    (F : QuantityWrapper R) (writes : List Nat) : Outcome R :=
  if first.ne last then
    match h : first.deref with
    | .error err => ⟨.error err, F, writes⟩
    | .ok v =>
      match result.assign F (fn v) with
      | .error err => ⟨.error err, F, writes⟩
      | .ok F1 =>
        ranges_copy_loop fn last first.next result.next F1 (writes ++ [result.pos])
  else
    ⟨.ok (), F, writes⟩
termination_by first.rest.length
decreasing_by
  unfold ConstIterator.deref at h
  unfold ConstIterator.next
  cases hr : first.rest with
  | nil => rw [hr] at h; cases h
  | cons x xs => simp

/-- The algorithm `std::ranges::copy(view, result)` on a transform view. -/
def ranges_copy {R : Type} [Mul R] [Div R] {d e : Dimension} (view : TransformView R d e) (result : Iterator R e)
    (F : QuantityWrapper R) : Outcome R :=
  ranges_copy_loop view.fn view.base.last view.base.begin result F []

/-- The order in which the two arguments of the call of `std::ranges::copy`
in the pipeline variant are evaluated; C++ leaves it to the compiler. -/
inductive ArgOrder where
  | leftToRight
  | rightToLeft
deriving DecidableEq, Repr

/-- The kernel `compute_gravitational_force_rac` (range adaptor closure).
Both arguments of `std::ranges::copy` are evaluated, in the order `order`,
before the copy starts; only the read sequence on `m` can fail there. -/
def compute_gravitational_force_rac {R : Type} [Mul R] [Div R] (order : ArgOrder)
    (m g_qw F : QuantityWrapper R) : Outcome R :=
  if g_qw.size ≠ 1 then
    ⟨.error (.runtime_error "'g' needs to be size-one."), F, []⟩
  else if m.size ≠ F.size then
    ⟨.error (.runtime_error "Incompatible size between 'm' and 'F'."), F, []⟩
  else if m.size = 0 then
    ⟨.ok (), F, []⟩
  else
    match g_qw.get si.acceleration with
    | .error err => ⟨.error err, F, []⟩
    | .ok g =>
      match order with
      | .leftToRight =>
        match m.const_iter si.mass with
        | .error err => ⟨.error err, F, []⟩
        | .ok generator =>
          let writer := F.iter si.force
          ranges_copy ⟨generator, transform_fn g⟩ writer.begin F
      | .rightToLeft =>
        let writer := F.iter si.force
        match m.const_iter si.mass with
        | .error err => ⟨.error err, F, []⟩
        | .ok generator => ranges_copy ⟨generator, transform_fn g⟩ writer.begin F

/-- The loop of the iterator variant:
`for (auto in = generator.begin(); in != generator.end(); ++in)`
with body `Mass mi = *in; *out = mi * g; ++out;`. -/
def force_iter_loop {R : Type} [Mul R] [Div R] (g : Acceleration R) (last : ConstIterator R si.mass)
    (cur : ConstIterator R si.mass) (out : Iterator R si.force)
    (F : QuantityWrapper R) (writes : List Nat) : Outcome R :=
  if cur.ne last then
    match h : cur.deref with
    | .error err => ⟨.error err, F, writes⟩
    | .ok mi =>
      match out.assign F (Quantity.mul mi g) with
      | .error err => ⟨.error err, F, writes⟩
      | .ok F1 => force_iter_loop g last cur.next out.next F1 (writes ++ [out.pos])
  else
    ⟨.ok (), F, writes⟩
termination_by cur.rest.length
decreasing_by
  unfold ConstIterator.deref at h
  unfold ConstIterator.next
  cases hr : cur.rest with
  | nil => rw [hr] at h; cases h
  | cons x xs => simp

/-- The kernel `compute_gravitational_force_iter` (explicit iterators). -/
def compute_gravitational_force_iter {R : Type} [Mul R] [Div R]
    (m g_qw F : QuantityWrapper R) : Outcome R :=
  if g_qw.size ≠ 1 then
    ⟨.error (.runtime_error "'g' needs to be size-one."), F, []⟩
  else if m.size ≠ F.size then
    ⟨.error (.runtime_error "Incompatible size between 'm' and 'F'."), F, []⟩
  else if m.size = 0 then
    ⟨.ok (), F, []⟩
  else
    match g_qw.get si.acceleration with
    | .error err => ⟨.error err, F, []⟩
    | .ok g =>
      let out := (F.iter si.force).begin
      match m.const_iter si.mass with
      | .error err => ⟨.error err, F, []⟩
      | .ok generator =>
        force_iter_loop g generator.last generator.begin out F []

/-- The loop of the index variant:
`for (size_t i=0; i<m.size(); ++i) F.set_element(i, m.get<Mass>(i) * g);`
The argument `m.get<Mass>(i) * g` is evaluated before `set_element` runs. -/
def force_index_loop {R : Type} [Mul R] [Div R] (m : QuantityWrapper R) (g : Acceleration R) (i : Nat)
    (F : QuantityWrapper R) (writes : List Nat) : Outcome R :=
  if i < m.size then
    match m.get_at si.mass i with
    | .error err => ⟨.error err, F, writes⟩
    | .ok mi =>
      match F.set_element i (Quantity.mul mi g) with
      | .error err => ⟨.error err, F, writes⟩
      | .ok F1 => force_index_loop m g (i + 1) F1 (writes ++ [i])
  else
    ⟨.ok (), F, writes⟩
termination_by m.size - i

/-- The kernel `compute_gravitational_force_index` (integer indices). -/
def compute_gravitational_force_index {R : Type} [Mul R] [Div R]
    (m g_qw F : QuantityWrapper R) : Outcome R :=
  if g_qw.size ≠ 1 then
    ⟨.error (.runtime_error "'g' needs to be size-one."), F, []⟩
  else if m.size ≠ F.size then
    ⟨.error (.runtime_error "Incompatible size between 'm' and 'F'."), F, []⟩
  else if m.size = 0 then
    ⟨.ok (), F, []⟩
  else
    match g_qw.get si.acceleration with
    | .error err => ⟨.error err, F, []⟩
    | .ok g => force_index_loop m g 0 F []

/-- Closed form of the outcome of a kernel, used to reason about the three
variants at once.  `idx` is the index a dimension mismatch on `m` carries in
the variant: the index `0` of the first read in the index variant, none for
the read sequence of the other two. -/
def kernel_outcome {R : Type} [Mul R] [Div R] (idx : Option Nat)
    (m g_qw F : QuantityWrapper R) : Outcome R :=
  match g_qw.data with
  | [g0] =>
    if m.size ≠ F.size then
      ⟨.error (.runtime_error "Incompatible size between 'm' and 'F'."), F, []⟩
    else if m.size = 0 then
      ⟨.ok (), F, []⟩
    else if g_qw.unit.dimension ≠ si.acceleration then
      ⟨.error (.DimensionMismatch none g_qw.unit.dimension si.acceleration), F, []⟩
    else if m.unit.dimension ≠ si.mass then
      ⟨.error (.DimensionMismatch idx m.unit.dimension si.mass), F, []⟩
    else if F.unit.dimension ≠ si.force then
      ⟨.error (.DimensionMismatch (some 0) F.unit.dimension si.force), F, []⟩
    else
      ⟨.ok (),
       ⟨m.data.map (fun x => (x * m.unit.scale) * (g0 * g_qw.unit.scale) / F.unit.scale),
        F.unit⟩,
       List.range m.size⟩
  | _ => ⟨.error (.runtime_error "'g' needs to be size-one."), F, []⟩

/-- Scenario 3 of the spec: the masses `[0.0, 1.0, 2.5]` in kilograms. -/
def scenario3_m : QuantityWrapper ℚ := ⟨[0, 1, 5 / 2], ⟨1, si.mass⟩⟩

/-- Scenario 3 of the spec: `g = 10.0` in metres per second squared. -/
def scenario3_g : QuantityWrapper ℚ := ⟨[10], ⟨1, si.acceleration⟩⟩

/-- Scenario 3 of the spec: an output buffer of three elements in newtons. -/
def scenario3_F : QuantityWrapper ℚ := ⟨[7, 7, 7], ⟨1, si.force⟩⟩

/-- Scenario 4 of the spec: the mass `[1000]` stored in grams
(one gram is `1/1000` of the canonical unit). -/
def scenario4_m : QuantityWrapper ℚ := ⟨[1000], ⟨1 / 1000, si.mass⟩⟩

/-- Scenario 4 of the spec: `g = 9.80665` in metres per second squared. -/
def scenario4_g : QuantityWrapper ℚ := ⟨[980665 / 100000], ⟨1, si.acceleration⟩⟩

/-- Scenario 4 of the spec: an output buffer of one element stored in
kilonewtons (one kilonewton is `1000` canonical units). -/
def scenario4_F : QuantityWrapper ℚ := ⟨[7], ⟨1000, si.force⟩⟩

/-- Scenario 5 of the spec: the mass `[1.0]` in kilograms. -/
def scenario5_m : QuantityWrapper ℚ := ⟨[1], ⟨1, si.mass⟩⟩

/-- Scenario 5 of the spec: a `g` of size two. -/
def scenario5_g : QuantityWrapper ℚ := ⟨[981 / 100, 981 / 100], ⟨1, si.acceleration⟩⟩

/-- Scenario 5 of the spec: an output buffer of one element in newtons. -/
def scenario5_F : QuantityWrapper ℚ := ⟨[7], ⟨1, si.force⟩⟩

/-- Scenario 6 of the spec: the masses `[1.0, 2.0]` in kilograms. -/
def scenario6_m : QuantityWrapper ℚ := ⟨[1, 2], ⟨1, si.mass⟩⟩

/-- Scenario 6 of the spec: `g = 9.81` in metres per second squared. -/
def scenario6_g : QuantityWrapper ℚ := ⟨[981 / 100], ⟨1, si.acceleration⟩⟩

/-- Scenario 6 of the spec: an output buffer of two elements whose unit is a
length. -/
def scenario6_F : QuantityWrapper ℚ := ⟨[7, 7], ⟨1, si.length⟩⟩

/-- An empty buffer of masses in kilograms (scenario 2 of the spec). -/
def empty_m : QuantityWrapper ℚ := ⟨[], ⟨1, si.mass⟩⟩

/-- An empty output buffer in newtons (scenario 2 of the spec). -/
def empty_F : QuantityWrapper ℚ := ⟨[], ⟨1, si.force⟩⟩

/-- The message the spec words for the size error on `g`, to compare with
the message the kernels throw. -/
def spec_message_g : String := "g must be scalar"

/-- The message the spec words for the size error between `m` and `F`, to
compare with the message the kernels throw. -/
def spec_message_mF : String := "size mismatch between m and F"

/-- An empty `g`, in metres per second squared. -/
def empty_g : QuantityWrapper ℚ := ⟨[], ⟨1, si.acceleration⟩⟩

/-- A `g` of one element whose unit is a length, not an acceleration. -/
def length_g : QuantityWrapper ℚ := ⟨[981 / 100], ⟨1, si.length⟩⟩

/-- An empty buffer whose unit is a length: neither a mass nor a force. -/
def empty_length : QuantityWrapper ℚ := ⟨[], ⟨1, si.length⟩⟩

/-! ## Properties of the traversal loops and of the closed form -/

theorem take_succ_set_eq {α : Type} (l : List α) (i : Nat) (v : α) (h : i < l.length) :
    (l.set i v).take (i + 1) = l.take i ++ [v] := by
  induction l generalizing i with
  | nil => simp at h
  | cons x xs ih =>
    cases i with
    | zero => simp
    | succ j =>
      simp only [List.length_cons, Nat.add_lt_add_iff_right] at h
      simp [ih j h]

theorem mass_mul_acceleration : Dimension.mul si.mass si.acceleration = si.force := by
  decide

/-- The index loop on well-dimensioned buffers: started at `i`, it overwrites
the elements of `F` from `i` on and succeeds. -/
theorem force_index_loop_ok {R : Type} [Mul R] [Div R] (m : QuantityWrapper R)
    (g : Acceleration R) (hm : m.unit.dimension = si.mass) :
    ∀ (k i : Nat) (F : QuantityWrapper R) (w : List Nat),
      m.size - i = k → F.size = m.size → F.unit.dimension = si.force →
      force_index_loop m g i F w =
        ⟨.ok (),
         ⟨F.data.take i ++
            (m.data.drop i).map (fun x => (x * m.unit.scale) * g.value / F.unit.scale),
          F.unit⟩,
         w ++ List.range' i k⟩ := by
  intro k
  induction k with
  | zero =>
    intro i F w hk hs hF
    have hi : ¬ i < m.size := by omega
    rw [force_index_loop, if_neg hi]
    have h1 : F.data.length ≤ i := by
      have := hs; unfold QuantityWrapper.size at this hi; omega
    have h2 : m.data.length ≤ i := by unfold QuantityWrapper.size at hi; omega
    simp [List.take_of_length_le h1, List.drop_eq_nil_of_le h2]
  | succ k ih =>
    intro i F w hk hs hF
    have hi : i < m.size := by omega
    have hi2 : i < m.data.length := hi
    have hiF : i < F.size := by omega
    rw [force_index_loop, if_pos hi]
    have hget : m.get_at si.mass i = .ok ⟨m.data[i] * m.unit.scale⟩ := by
      simp [QuantityWrapper.get_at, hm, List.getElem?_eq_getElem hi2]
    rw [hget]
    simp only
    have hset : F.set_element i (Quantity.mul (⟨m.data[i] * m.unit.scale⟩ : Mass R) g)
        = .ok { F with data := F.data.set i ((m.data[i] * m.unit.scale) * g.value / F.unit.scale) } := by
      simp [QuantityWrapper.set_element, hF, mass_mul_acceleration, hiF, Quantity.mul]
    rw [hset]
    simp only
    rw [ih (i + 1) ⟨F.data.set i ((m.data[i] * m.unit.scale) * g.value / F.unit.scale), F.unit⟩
      (w ++ [i]) (by omega) (by simpa [QuantityWrapper.size] using hs) hF]
    have hiF2 : i < F.data.length := hiF
    have key : List.take (i + 1)
          (F.data.set i ((m.data[i] * m.unit.scale) * g.value / F.unit.scale)) ++
          (m.data.drop (i + 1)).map (fun x => (x * m.unit.scale) * g.value / F.unit.scale)
        = F.data.take i ++
          (m.data.drop i).map (fun x => (x * m.unit.scale) * g.value / F.unit.scale) := by
      rw [take_succ_set_eq _ _ _ hiF2, List.drop_eq_getElem_cons hi2, List.map_cons,
        List.append_assoc]
      rfl
    have hw : (w ++ [i]) ++ List.range' (i + 1) k = w ++ List.range' i (k + 1) := by
      simp [List.range'_succ]
    show Outcome.mk _ (QuantityWrapper.mk _ _) _ = _
    rw [key, hw]

theorem force_index_loop_bad_m {R : Type} [Mul R] [Div R] (m : QuantityWrapper R)
    (g : Acceleration R) (F : QuantityWrapper R) (w : List Nat) (i : Nat)
    (hi : i < m.size) (hm : m.unit.dimension ≠ si.mass) :
    force_index_loop m g i F w =
      ⟨.error (.DimensionMismatch (some i) m.unit.dimension si.mass), F, w⟩ := by
  rw [force_index_loop, if_pos hi]
  simp [QuantityWrapper.get_at, hm]

theorem force_index_loop_bad_F {R : Type} [Mul R] [Div R] (m : QuantityWrapper R)
    (g : Acceleration R) (F : QuantityWrapper R) (w : List Nat) (i : Nat)
    (hi : i < m.size) (hm : m.unit.dimension = si.mass)
    (hF : F.unit.dimension ≠ si.force) :
    force_index_loop m g i F w =
      ⟨.error (.DimensionMismatch (some i) F.unit.dimension si.force), F, w⟩ := by
  have hi2 : i < m.data.length := hi
  rw [force_index_loop, if_pos hi]
  simp [QuantityWrapper.get_at, hm, List.getElem?_eq_getElem hi2,
    QuantityWrapper.set_element, mass_mul_acceleration, hF]

/-- The iterator loop on an output buffer whose unit is a force: it
overwrites the elements of `F` from the position of the write cursor on, one
for each element left to read, and succeeds. -/
theorem force_iter_loop_ok {R : Type} [Mul R] [Div R] (g : Acceleration R) (s sF : R) :
    ∀ (rest : List R) (i : Nat) (F : QuantityWrapper R) (w : List Nat),
      F.unit.dimension = si.force → F.size = i + rest.length →
      force_iter_loop g ⟨[], s⟩ ⟨rest, s⟩ ⟨i, sF⟩ F w =
        ⟨.ok (),
         ⟨F.data.take i ++ rest.map (fun x => (x * s) * g.value / sF), F.unit⟩,
         w ++ List.range' i rest.length⟩ := by
  intro rest
  induction rest with
  | nil =>
    intro i F w _ hs
    have h1 : F.data.length ≤ i := by
      unfold QuantityWrapper.size at hs; simp at hs; omega
    rw [force_iter_loop]
    simp [ConstIterator.ne, List.take_of_length_le h1]
  | cons x xs ih =>
    intro i F w hF hs
    have hiF : i < F.data.length := by
      unfold QuantityWrapper.size at hs; simp at hs; omega
    rw [force_iter_loop]
    simp only [ConstIterator.ne, ConstIterator.deref, ConstIterator.next, Iterator.assign,
      Iterator.next, QuantityWrapper.size, Quantity.mul, List.length_cons, List.length_nil,
      List.tail_cons, hiF, hF, ne_eq, not_true_eq_false, if_true, if_false]
    have hne : (xs.length + 1 != 0) = true := by simp
    rw [hne, if_pos rfl]
    rw [ih (i + 1) ⟨F.data.set i ((x * s) * g.value / sF), F.unit⟩ (w ++ [i]) hF
      (by simp [QuantityWrapper.size] at hs ⊢; omega)]
    have key : List.take (i + 1) (F.data.set i ((x * s) * g.value / sF)) ++
          xs.map (fun x => (x * s) * g.value / sF)
        = F.data.take i ++ (x :: xs).map (fun x => (x * s) * g.value / sF) := by
      rw [take_succ_set_eq _ _ _ hiF, List.map_cons, List.append_assoc]
      rfl
    have hw : (w ++ [i]) ++ List.range' (i + 1) xs.length
        = w ++ List.range' i (xs.length + 1) := by
      simp [List.range'_succ]
    show Outcome.mk _ (QuantityWrapper.mk _ _) _ = _
    rw [key, hw]

/-- The iterator loop on an output buffer whose unit is not a force: the
first assignment through the write cursor fails, before anything is
written. -/
theorem force_iter_loop_bad_F {R : Type} [Mul R] [Div R] (g : Acceleration R) (s sF : R)
    (x : R) (xs : List R) (i : Nat) (F : QuantityWrapper R) (w : List Nat)
    (hF : F.unit.dimension ≠ si.force) :
    force_iter_loop g ⟨[], s⟩ ⟨x :: xs, s⟩ ⟨i, sF⟩ F w =
      ⟨.error (.DimensionMismatch (some i) F.unit.dimension si.force), F, w⟩ := by
  rw [force_iter_loop]
  simp only [ConstIterator.ne, ConstIterator.deref, Iterator.assign, List.length_cons,
    List.length_nil, hF, ne_eq, not_false_eq_true, if_true]
  have hne : (xs.length + 1 != 0) = true := by simp
  rw [hne, if_pos rfl]

/-- The loop of `std::ranges::copy`, as the iterator loop. -/
theorem ranges_copy_loop_ok {R : Type} [Mul R] [Div R] {d e : Dimension}
    (fn : Quantity R d → Quantity R e) (s sF : R) :
    ∀ (rest : List R) (i : Nat) (F : QuantityWrapper R) (w : List Nat),
      F.unit.dimension = e → F.size = i + rest.length →
      ranges_copy_loop fn ⟨[], s⟩ ⟨rest, s⟩ ⟨i, sF⟩ F w =
        ⟨.ok (),
         ⟨F.data.take i ++ rest.map (fun x => (fn ⟨x * s⟩).value / sF), F.unit⟩,
         w ++ List.range' i rest.length⟩ := by
  intro rest
  induction rest with
  | nil =>
    intro i F w _ hs
    have h1 : F.data.length ≤ i := by
      unfold QuantityWrapper.size at hs; simp at hs; omega
    rw [ranges_copy_loop]
    simp [ConstIterator.ne, List.take_of_length_le h1]
  | cons x xs ih =>
    intro i F w hF hs
    have hiF : i < F.data.length := by
      unfold QuantityWrapper.size at hs; simp at hs; omega
    rw [ranges_copy_loop]
    simp only [ConstIterator.ne, ConstIterator.deref, ConstIterator.next, Iterator.assign,
      Iterator.next, QuantityWrapper.size, List.length_cons, List.length_nil,
      List.tail_cons, hiF, hF, ne_eq, not_true_eq_false, if_true, if_false]
    have hne : (xs.length + 1 != 0) = true := by simp
    rw [hne, if_pos rfl]
    rw [ih (i + 1) ⟨F.data.set i ((fn ⟨x * s⟩).value / sF), F.unit⟩ (w ++ [i]) hF
      (by simp [QuantityWrapper.size] at hs ⊢; omega)]
    have key : List.take (i + 1) (F.data.set i ((fn ⟨x * s⟩).value / sF)) ++
          xs.map (fun x => (fn ⟨x * s⟩).value / sF)
        = F.data.take i ++ (x :: xs).map (fun x => (fn ⟨x * s⟩).value / sF) := by
      rw [take_succ_set_eq _ _ _ hiF, List.map_cons, List.append_assoc]
      rfl
    have hw : (w ++ [i]) ++ List.range' (i + 1) xs.length
        = w ++ List.range' i (xs.length + 1) := by
      simp [List.range'_succ]
    show Outcome.mk _ (QuantityWrapper.mk _ _) _ = _
    rw [key, hw]

/-- The loop of `std::ranges::copy` on an output buffer of another dimension
than the cursor writes: the first assignment fails, before anything is
written. -/
theorem ranges_copy_loop_bad_F {R : Type} [Mul R] [Div R] {d e : Dimension}
    (fn : Quantity R d → Quantity R e) (s sF : R)
    (x : R) (xs : List R) (i : Nat) (F : QuantityWrapper R) (w : List Nat)
    (hF : F.unit.dimension ≠ e) :
    ranges_copy_loop fn ⟨[], s⟩ ⟨x :: xs, s⟩ ⟨i, sF⟩ F w =
      ⟨.error (.DimensionMismatch (some i) F.unit.dimension e), F, w⟩ := by
  rw [ranges_copy_loop]
  simp only [ConstIterator.ne, ConstIterator.deref, Iterator.assign, List.length_cons,
    List.length_nil, hF, ne_eq, not_false_eq_true, if_true]
  have hne : (xs.length + 1 != 0) = true := by simp
  rw [hne, if_pos rfl]

theorem size_one_data {R : Type} (g : QuantityWrapper R) :
    g.size = 1 ↔ ∃ g0, g.data = [g0] := by
  unfold QuantityWrapper.size
  exact List.length_eq_one

theorem kernel_outcome_of_size_ne {R : Type} [Mul R] [Div R] (idx : Option Nat)
    (m g F : QuantityWrapper R) (hg : g.size ≠ 1) :
    kernel_outcome idx m g F =
      ⟨.error (.runtime_error "'g' needs to be size-one."), F, []⟩ := by
  unfold kernel_outcome
  have : ∀ g0, g.data ≠ [g0] := fun g0 h => hg ((size_one_data g).2 ⟨g0, h⟩)
  split
  · rename_i g0 h
    exact absurd h (this g0)
  · rfl

/-- The index variant meets the dimension check of `m` before that of `F`,
both at index `0`. -/
theorem compute_gravitational_force_index_eq {R : Type} [Mul R] [Div R]
    (m g F : QuantityWrapper R) :
    compute_gravitational_force_index m g F = kernel_outcome (some 0) m g F := by
  by_cases hg : g.size = 1
  · obtain ⟨g0, hg0⟩ := (size_one_data g).1 hg
    unfold compute_gravitational_force_index kernel_outcome
    by_cases hs : m.size = F.size
    · by_cases h0 : m.size = 0
      · simp [hg, hg0, hs, h0, hs ▸ h0]
      · have h0F : ¬ F.size = 0 := hs ▸ h0
        by_cases hga : g.unit.dimension = si.acceleration
        · have hget : g.get si.acceleration = .ok ⟨g0 * g.unit.scale⟩ := by
            simp [QuantityWrapper.get, hga, hg0]
          by_cases hm : m.unit.dimension = si.mass
          · by_cases hF : F.unit.dimension = si.force
            · simp [hg, hg0, hs, h0F, hga, hget, hm, hF,
                force_index_loop_ok m _ hm m.size 0 F [] (by omega) hs.symm hF,
                List.range_eq_range']
            · simp [hg, hg0, hs, h0F, hga, hget, hm, hF,
                force_index_loop_bad_F m _ F [] 0 (by omega) hm hF]
          · simp [hg, hg0, hs, h0F, hga, hget, hm,
              force_index_loop_bad_m m _ F [] 0 (by omega) hm]
        · simp [hg, hg0, hs, h0F, hga, QuantityWrapper.get]
    · simp [hg, hg0, hs]
  · rw [kernel_outcome_of_size_ne _ _ _ _ hg]
    unfold compute_gravitational_force_index
    rw [if_pos hg]

/-- A buffer that is not empty has a first stored value. -/
theorem data_cons_of_size_ne_zero {R : Type} (m : QuantityWrapper R) (h0 : m.size ≠ 0) :
    ∃ x xs, m.data = x :: xs := by
  cases hd : m.data with
  | nil => exact absurd (by simp [QuantityWrapper.size, hd]) h0
  | cons x xs => exact ⟨x, xs, rfl⟩

/-- The iterator variant sets up the read sequence on `m`, where the dimension
of `m` is checked, and meets the dimension of `F` at its first write. -/
theorem compute_gravitational_force_iter_eq {R : Type} [Mul R] [Div R]
    (m g F : QuantityWrapper R) :
    compute_gravitational_force_iter m g F = kernel_outcome none m g F := by
  by_cases hg : g.size = 1
  · obtain ⟨g0, hg0⟩ := (size_one_data g).1 hg
    unfold compute_gravitational_force_iter kernel_outcome
    by_cases hs : m.size = F.size
    · by_cases h0 : m.size = 0
      · simp [hg, hg0, hs, h0, hs ▸ h0]
      · have h0F : ¬ F.size = 0 := hs ▸ h0
        by_cases hga : g.unit.dimension = si.acceleration
        · have hget : g.get si.acceleration = .ok ⟨g0 * g.unit.scale⟩ := by
            simp [QuantityWrapper.get, hga, hg0]
          by_cases hm : m.unit.dimension = si.mass
          · by_cases hF : F.unit.dimension = si.force
            · have hloop : force_iter_loop (⟨g0 * g.unit.scale⟩ : Acceleration R)
                  ⟨[], m.unit.scale⟩ ⟨m.data, m.unit.scale⟩ ⟨0, F.unit.scale⟩ F [] =
                  ⟨.ok (),
                   ⟨m.data.map
                      (fun x => (x * m.unit.scale) * (g0 * g.unit.scale) / F.unit.scale),
                    F.unit⟩,
                   List.range F.size⟩ := by
                rw [force_iter_loop_ok _ _ _ m.data 0 F [] hF
                  (by simp [QuantityWrapper.size] at hs ⊢; omega)]
                simp only [List.take_zero, List.nil_append, List.range_eq_range',
                  QuantityWrapper.size]
                rw [show m.data.length = F.data.length from hs]
              simp only [hg, hg0, hs, h0F, hga, hget, hm, hF, QuantityWrapper.iter,
                QuantityWrapper.const_iter, ConstIterable.begin, ConstIterable.last,
                Iterable.begin, ne_eq, not_true_eq_false, if_false]
              exact hloop
            · obtain ⟨x, xs, hd⟩ := data_cons_of_size_ne_zero m h0
              have hloop := force_iter_loop_bad_F (⟨g0 * g.unit.scale⟩ : Acceleration R)
                m.unit.scale F.unit.scale x xs 0 F [] hF
              simp only [hg, hg0, hs, h0F, hga, hget, hm, hF, QuantityWrapper.iter,
                QuantityWrapper.const_iter, ConstIterable.begin, ConstIterable.last,
                Iterable.begin, ne_eq, not_true_eq_false, not_false_eq_true, if_false,
                if_true, hd]
              exact hloop
          · simp [hg, hg0, hs, h0F, hga, hget, hm, QuantityWrapper.const_iter]
        · simp [hg, hg0, hs, h0F, hga, QuantityWrapper.get]
    · simp [hg, hg0, hs]
  · rw [kernel_outcome_of_size_ne _ _ _ _ hg]
    unfold compute_gravitational_force_iter
    rw [if_pos hg]

/-- The pipeline variant, in either order of evaluation of the two arguments
of `std::ranges::copy`: the read sequence on `m` is checked when it is set
up, the dimension of `F` at the first write of the copy. -/
theorem compute_gravitational_force_rac_eq {R : Type} [Mul R] [Div R]
    (order : ArgOrder) (m g F : QuantityWrapper R) :
    compute_gravitational_force_rac order m g F = kernel_outcome none m g F := by
  by_cases hg : g.size = 1
  · obtain ⟨g0, hg0⟩ := (size_one_data g).1 hg
    unfold compute_gravitational_force_rac kernel_outcome
    by_cases hs : m.size = F.size
    · by_cases h0 : m.size = 0
      · simp [hg, hg0, hs, h0, hs ▸ h0]
      · have h0F : ¬ F.size = 0 := hs ▸ h0
        by_cases hga : g.unit.dimension = si.acceleration
        · have hget : g.get si.acceleration = .ok ⟨g0 * g.unit.scale⟩ := by
            simp [QuantityWrapper.get, hga, hg0]
          by_cases hm : m.unit.dimension = si.mass
          · by_cases hF : F.unit.dimension = si.force
            · have hloop : ranges_copy_loop
                  (transform_fn (⟨g0 * g.unit.scale⟩ : Acceleration R))
                  ⟨[], m.unit.scale⟩ ⟨m.data, m.unit.scale⟩ ⟨0, F.unit.scale⟩ F [] =
                  ⟨.ok (),
                   ⟨m.data.map
                      (fun x => (x * m.unit.scale) * (g0 * g.unit.scale) / F.unit.scale),
                    F.unit⟩,
                   List.range F.size⟩ := by
                rw [ranges_copy_loop_ok _ _ _ m.data 0 F [] hF
                  (by simp [QuantityWrapper.size] at hs ⊢; omega)]
                simp only [List.take_zero, List.nil_append, List.range_eq_range',
                  QuantityWrapper.size, transform_fn, Quantity.mul]
                rw [show m.data.length = F.data.length from hs]
              cases order <;>
              simp only [hg, hg0, hs, h0F, hga, hget, hm, hF, QuantityWrapper.iter,
                QuantityWrapper.const_iter, ConstIterable.begin, ConstIterable.last,
                Iterable.begin, ranges_copy, ne_eq, not_true_eq_false, if_false] <;>
              exact hloop
            · obtain ⟨x, xs, hd⟩ := data_cons_of_size_ne_zero m h0
              have hloop := ranges_copy_loop_bad_F
                (transform_fn (⟨g0 * g.unit.scale⟩ : Acceleration R))
                m.unit.scale F.unit.scale x xs 0 F [] hF
              cases order <;>
              simp only [hg, hg0, hs, h0F, hga, hget, hm, hF, QuantityWrapper.iter,
                QuantityWrapper.const_iter, ConstIterable.begin, ConstIterable.last,
                Iterable.begin, ranges_copy, ne_eq, not_true_eq_false, not_false_eq_true,
                if_false, if_true, hd] <;>
              exact hloop
          · cases order <;>
            simp [hg, hg0, hs, h0F, hga, hget, hm, QuantityWrapper.const_iter]
        · simp [hg, hg0, hs, h0F, hga, QuantityWrapper.get]
    · simp [hg, hg0, hs]
  · rw [kernel_outcome_of_size_ne _ _ _ _ hg]
    unfold compute_gravitational_force_rac
    rw [if_pos hg]

theorem kernel_outcome_failure_frame {R : Type} [Mul R] [Div R] (idx : Option Nat)
    (m g F : QuantityWrapper R) (e : Error)
    (h : (kernel_outcome idx m g F).result = .error e) :
    (kernel_outcome idx m g F).F = F ∧ (kernel_outcome idx m g F).writes = [] := by
  unfold kernel_outcome at h ⊢
  split
  · split_ifs <;> simp_all
  · simp

theorem kernel_outcome_size_mismatch {R : Type} [Mul R] [Div R] (idx : Option Nat)
    (m g F : QuantityWrapper R) (hg : g.size = 1) (hs : m.size ≠ F.size) :
    kernel_outcome idx m g F =
      ⟨.error (.runtime_error "Incompatible size between 'm' and 'F'."), F, []⟩ := by
  obtain ⟨g0, hg0⟩ := (size_one_data g).1 hg
  unfold kernel_outcome
  simp [hg0, hs]

/-- C3: when `g` does not have exactly one element (the empty `g` included),
each of the three kernels fails with the size error about `g`, the contents
of `F` are what they were before the call and no element of `F` has been
written, whatever the sizes and units of `m` and `F`. -/
theorem C3_g_not_scalar_fails_before_any_write {R : Type} [Mul R] [Div R]
    (order : ArgOrder) (m g F : QuantityWrapper R) (hg : g.size ≠ 1) :
    compute_gravitational_force_rac order m g F =
        ⟨.error (.runtime_error "'g' needs to be size-one."), F, []⟩ ∧
    compute_gravitational_force_iter m g F =
        ⟨.error (.runtime_error "'g' needs to be size-one."), F, []⟩ ∧
    compute_gravitational_force_index m g F =
        ⟨.error (.runtime_error "'g' needs to be size-one."), F, []⟩ := by
  refine ⟨?_, ?_, ?_⟩
  · unfold compute_gravitational_force_rac; rw [if_pos hg]
  · unfold compute_gravitational_force_iter; rw [if_pos hg]
  · unfold compute_gravitational_force_index; rw [if_pos hg]

/-- C4: when the sizes of `m` and `F` differ, each of the three kernels fails
with a size error (the one about `g` when `g` is not of size one either, the
one about `m` and `F` otherwise), the contents of `F` are what they were
before the call and no element of `F` has been written. -/
theorem C4_size_mismatch_fails_before_any_write {R : Type} [Mul R] [Div R]
    (order : ArgOrder) (m g F : QuantityWrapper R) (hs : m.size ≠ F.size) :
    compute_gravitational_force_rac order m g F =
        ⟨.error (.runtime_error (if g.size = 1 then "Incompatible size between 'm' and 'F'."
          else "'g' needs to be size-one.")), F, []⟩ ∧
    compute_gravitational_force_iter m g F =
        ⟨.error (.runtime_error (if g.size = 1 then "Incompatible size between 'm' and 'F'."
          else "'g' needs to be size-one.")), F, []⟩ ∧
    compute_gravitational_force_index m g F =
        ⟨.error (.runtime_error (if g.size = 1 then "Incompatible size between 'm' and 'F'."
          else "'g' needs to be size-one.")), F, []⟩ := by
  by_cases hg : g.size = 1
  · rw [if_pos hg]
    refine ⟨?_, ?_, ?_⟩
    · unfold compute_gravitational_force_rac
      rw [if_neg (not_not.mpr hg), if_pos hs]
    · unfold compute_gravitational_force_iter
      rw [if_neg (not_not.mpr hg), if_pos hs]
    · unfold compute_gravitational_force_index
      rw [if_neg (not_not.mpr hg), if_pos hs]
  · rw [if_neg hg]
    refine ⟨?_, ?_, ?_⟩
    · unfold compute_gravitational_force_rac; rw [if_pos hg]
    · unfold compute_gravitational_force_iter; rw [if_pos hg]
    · unfold compute_gravitational_force_index; rw [if_pos hg]

theorem kernel_outcome_ok_iff {R : Type} [Mul R] [Div R] (idx : Option Nat)
    (m g F : QuantityWrapper R) :
    (kernel_outcome idx m g F).result = .ok () ↔
      g.size = 1 ∧ m.size = F.size ∧
        (m.size = 0 ∨ (g.unit.dimension = si.acceleration ∧ m.unit.dimension = si.mass ∧
          F.unit.dimension = si.force)) := by
  by_cases hg : g.size = 1
  · obtain ⟨g0, hg0⟩ := (size_one_data g).1 hg
    unfold kernel_outcome
    simp only [hg0, hg, true_and]
    split_ifs <;> simp_all
  · rw [kernel_outcome_of_size_ne _ _ _ _ hg]
    simp [hg]

theorem kernel_outcome_ok_value {R : Type} [Mul R] [Div R] (idx : Option Nat)
    (m g F : QuantityWrapper R) (g0 : R) (hg0 : g.data = [g0])
    (hs : m.size = F.size) (h0 : m.size ≠ 0) (hg : g.unit.dimension = si.acceleration)
    (hm : m.unit.dimension = si.mass) (hF : F.unit.dimension = si.force) :
    kernel_outcome idx m g F =
      ⟨.ok (),
       ⟨m.data.map (fun x => (x * m.unit.scale) * (g0 * g.unit.scale) / F.unit.scale), F.unit⟩,
       List.range m.size⟩ := by
  unfold kernel_outcome
  simp [hg0, hs, hg, hm, hF, hs ▸ h0]

theorem kernel_outcome_empty {R : Type} [Mul R] [Div R] (idx : Option Nat)
    (m g F : QuantityWrapper R) (h0 : m.size = 0) :
    (kernel_outcome idx m g F).F = F ∧ (kernel_outcome idx m g F).writes = [] := by
  unfold kernel_outcome
  split
  · split_ifs <;> simp_all
  · simp

theorem kernel_is_outcome {R : Type} [Mul R] [Div R] (order : ArgOrder)
    (k : QuantityWrapper R → QuantityWrapper R → QuantityWrapper R → Outcome R)
    (hk : k = compute_gravitational_force_rac order ∨ k = compute_gravitational_force_iter ∨
      k = compute_gravitational_force_index) :
    ∃ idx, ∀ m g F, k m g F = kernel_outcome idx m g F := by
  rcases hk with h | h | h
  · exact ⟨none, fun m g F => by rw [h, compute_gravitational_force_rac_eq]⟩
  · exact ⟨none, fun m g F => by rw [h, compute_gravitational_force_iter_eq]⟩
  · exact ⟨some 0, fun m g F => by rw [h, compute_gravitational_force_index_eq]⟩

/-- C1: for a mass buffer `m`, a single-element acceleration buffer `g` and a
force buffer `F` of the size of `m`, the three kernels started from the same
`F` succeed and leave the same `F` (and have written the same indices in the
same order).  The magnitude type is arbitrary and no law of its
multiplication and division is used, so the three variants apply the same
operations to the same operands in the same order. -/
theorem C1_three_variants_leave_identical_F {R : Type} [Mul R] [Div R]
    (order : ArgOrder) (m g F : QuantityWrapper R)
    (hm : m.unit.dimension = si.mass) (hg : g.unit.dimension = si.acceleration)
    (hF : F.unit.dimension = si.force) (hg1 : g.size = 1) (hs : F.size = m.size) :
    compute_gravitational_force_rac order m g F = compute_gravitational_force_iter m g F ∧
    compute_gravitational_force_iter m g F = compute_gravitational_force_index m g F ∧
    (compute_gravitational_force_index m g F).result = .ok () := by
  rw [compute_gravitational_force_rac_eq, compute_gravitational_force_iter_eq,
    compute_gravitational_force_index_eq]
  obtain ⟨g0, hg0⟩ := (size_one_data g).1 hg1
  by_cases h0 : m.size = 0
  · have h0F : F.size = 0 := hs ▸ h0
    unfold kernel_outcome
    simp [hg0, h0, h0F]
  · rw [kernel_outcome_ok_value none m g F g0 hg0 hs.symm h0 hg hm hF,
      kernel_outcome_ok_value (some 0) m g F g0 hg0 hs.symm h0 hg hm hF]
    exact ⟨rfl, rfl, rfl⟩

/-- Witness of C1 on scenario 3 of the spec. -/
theorem C1_witness :
    compute_gravitational_force_rac .rightToLeft scenario3_m scenario3_g scenario3_F =
      compute_gravitational_force_iter scenario3_m scenario3_g scenario3_F ∧
    compute_gravitational_force_iter scenario3_m scenario3_g scenario3_F =
      compute_gravitational_force_index scenario3_m scenario3_g scenario3_F ∧
    (compute_gravitational_force_index scenario3_m scenario3_g scenario3_F).result = .ok () :=
  C1_three_variants_leave_identical_F .rightToLeft scenario3_m scenario3_g scenario3_F
    (by decide) (by decide) (by decide) (by decide) (by decide)

/-- C2: after a successful call of any of the three kernels, `g` has one
element `g0` and every stored value of `F` is
`(raw_m[i] * scale(m)) * (g0 * scale(g)) / scale(F)`; and when dividing by the
scale of `F` is undone by multiplying with it (as in exact arithmetic with a
non-zero scale), reading `F[i]` back as a force gives the canonical magnitude
of `m[i]` times the canonical magnitude of `g`. -/
theorem C2_force_is_mass_times_acceleration {R : Type} [Mul R] [Div R] (order : ArgOrder)
    (k : QuantityWrapper R → QuantityWrapper R → QuantityWrapper R → Outcome R)
    (hk : k = compute_gravitational_force_rac order ∨ k = compute_gravitational_force_iter ∨
      k = compute_gravitational_force_index)
    (m g F : QuantityWrapper R) (hok : (k m g F).result = .ok ()) :
    ∃ g0, g.data = [g0] ∧ (k m g F).F.size = m.size ∧
      ∀ (i : Nat) (hi : i < m.data.length),
        (k m g F).F.data[i]? =
          some ((m.data[i] * m.unit.scale) * (g0 * g.unit.scale) / F.unit.scale) ∧
        ((∀ x : R, x / F.unit.scale * F.unit.scale = x) →
          (k m g F).F.get_at si.force i =
            .ok ⟨(m.data[i] * m.unit.scale) * (g0 * g.unit.scale)⟩) := by
  obtain ⟨idx, hko⟩ := kernel_is_outcome order k hk
  rw [hko] at hok ⊢
  obtain ⟨hg1, hs, hrest⟩ := (kernel_outcome_ok_iff idx m g F).1 hok
  obtain ⟨g0, hg0⟩ := (size_one_data g).1 hg1
  refine ⟨g0, hg0, ?_, ?_⟩
  · by_cases h0 : m.size = 0
    · rw [(kernel_outcome_empty idx m g F h0).1]; exact hs.symm
    · rcases hrest with h | ⟨hg, hm, hF⟩
      · exact absurd h h0
      · rw [kernel_outcome_ok_value idx m g F g0 hg0 hs h0 hg hm hF]
        simp [QuantityWrapper.size]
  · intro i hi
    have h0 : m.size ≠ 0 := by
      have : i < m.size := hi
      omega
    rcases hrest with h | ⟨hg, hm, hF⟩
    · exact absurd h h0
    · rw [kernel_outcome_ok_value idx m g F g0 hg0 hs h0 hg hm hF]
      refine ⟨?_, ?_⟩
      · simp [List.getElem?_eq_getElem hi]
      · intro hcancel
        simp [QuantityWrapper.get_at, hF, List.getElem?_eq_getElem hi, hcancel]

theorem scenario4_iter_ok :
    (compute_gravitational_force_iter scenario4_m scenario4_g scenario4_F).result = .ok () := by
  rw [compute_gravitational_force_iter_eq]
  exact (kernel_outcome_ok_iff _ _ _ _).2
    ⟨by decide, by decide, Or.inr ⟨by decide, by decide, by decide⟩⟩

theorem scenario3_index_ok :
    (compute_gravitational_force_index scenario3_m scenario3_g scenario3_F).result = .ok () := by
  rw [compute_gravitational_force_index_eq]
  exact (kernel_outcome_ok_iff _ _ _ _).2
    ⟨by decide, by decide, Or.inr ⟨by decide, by decide, by decide⟩⟩

/-- Witness of C2 on the two scenarios the claim names: `1000` grams under
`g = 9.80665` give `0.00980665` kilonewtons, which read back as `9.80665`
newtons, and the masses `[0, 1, 2.5]` under `g = 10` give `[0, 10, 25]`
newtons. -/
theorem C2_witness :
    (compute_gravitational_force_iter scenario4_m scenario4_g scenario4_F).result = .ok () ∧
    (compute_gravitational_force_iter scenario4_m scenario4_g scenario4_F).F.data[0]? =
      some (980665 / 100000000) ∧
    (compute_gravitational_force_iter scenario4_m scenario4_g scenario4_F).F.get_at si.force 0 =
      .ok ⟨980665 / 100000⟩ ∧
    (compute_gravitational_force_index scenario3_m scenario3_g scenario3_F).result = .ok () ∧
    (compute_gravitational_force_index scenario3_m scenario3_g scenario3_F).F.data[0]? = some 0 ∧
    (compute_gravitational_force_index scenario3_m scenario3_g scenario3_F).F.data[1]? = some 10 ∧
    (compute_gravitational_force_index scenario3_m scenario3_g scenario3_F).F.data[2]? =
      some 25 := by
  obtain ⟨a, ha, -, h4⟩ := C2_force_is_mass_times_acceleration .leftToRight
    compute_gravitational_force_iter (Or.inr (Or.inl rfl))
    scenario4_m scenario4_g scenario4_F scenario4_iter_ok
  obtain ⟨b, hb, -, h3⟩ := C2_force_is_mass_times_acceleration .leftToRight
    compute_gravitational_force_index (Or.inr (Or.inr rfl))
    scenario3_m scenario3_g scenario3_F scenario3_index_ok
  have ha2 : a = 980665 / 100000 := by
    have := ha; simp only [scenario4_g, List.cons.injEq, and_true] at this; exact this.symm
  have hb2 : b = 10 := by
    have := hb; simp only [scenario3_g, List.cons.injEq, and_true] at this; exact this.symm
  subst ha2 hb2
  have hcancel : ∀ x : ℚ, x / scenario4_F.unit.scale * scenario4_F.unit.scale = x := by
    intro x
    simp [scenario4_F]
  have e40 := h4 0 (by decide)
  have e30 := h3 0 (by decide)
  have e31 := h3 1 (by decide)
  have e32 := h3 2 (by decide)
  refine ⟨scenario4_iter_ok, ?_, ?_, scenario3_index_ok, ?_, ?_, ?_⟩
  · rw [e40.1]; simp [scenario4_m, scenario4_g, scenario4_F]; norm_num
  · rw [e40.2 hcancel]; simp [scenario4_m, scenario4_g]
  · rw [e30.1]; simp [scenario3_m, scenario3_g, scenario3_F]
  · rw [e31.1]; simp [scenario3_m, scenario3_g, scenario3_F]
  · rw [e32.1]; simp [scenario3_m, scenario3_g, scenario3_F]; norm_num

/-- Witness of C3 on scenario 5 of the spec (a `g` of size two). -/
theorem C3_witness :
    scenario5_g.size ≠ 1 ∧
    compute_gravitational_force_rac .leftToRight scenario5_m scenario5_g scenario5_F =
        ⟨.error (.runtime_error "'g' needs to be size-one."), scenario5_F, []⟩ ∧
    compute_gravitational_force_iter scenario5_m scenario5_g scenario5_F =
        ⟨.error (.runtime_error "'g' needs to be size-one."), scenario5_F, []⟩ ∧
    compute_gravitational_force_index scenario5_m scenario5_g scenario5_F =
        ⟨.error (.runtime_error "'g' needs to be size-one."), scenario5_F, []⟩ :=
  ⟨by decide,
   C3_g_not_scalar_fails_before_any_write .leftToRight scenario5_m scenario5_g scenario5_F
     (by decide)⟩

/-- Witness of C4: three masses, a scalar `g` and an output buffer of one
element. -/
theorem C4_witness :
    scenario3_m.size ≠ scenario5_F.size ∧
    compute_gravitational_force_index scenario3_m scenario3_g scenario5_F =
      ⟨.error (.runtime_error "Incompatible size between 'm' and 'F'."), scenario5_F, []⟩ :=
  ⟨by decide,
   (C4_size_mismatch_fails_before_any_write .leftToRight scenario3_m scenario3_g scenario5_F
     (by decide)).2.2⟩

/-- Counterexample to C5 as stated: with an empty `m`, the kernels fail when
`g` is not of size one (first input) and when `F` is not empty (second
input). -/
theorem C5_counterexample :
    empty_m.size = 0 ∧
    (compute_gravitational_force_rac .leftToRight empty_m scenario5_g empty_F).result =
      .error (.runtime_error "'g' needs to be size-one.") ∧
    (compute_gravitational_force_iter empty_m scenario5_g empty_F).result =
      .error (.runtime_error "'g' needs to be size-one.") ∧
    (compute_gravitational_force_index empty_m scenario5_g empty_F).result =
      .error (.runtime_error "'g' needs to be size-one.") ∧
    (compute_gravitational_force_index empty_m scenario3_g scenario5_F).result =
      .error (.runtime_error "Incompatible size between 'm' and 'F'.") := by
  refine ⟨by decide, ?_, ?_, ?_, ?_⟩
  · rw [compute_gravitational_force_rac_eq,
      kernel_outcome_of_size_ne _ _ _ _ (by decide)]
  · rw [compute_gravitational_force_iter_eq,
      kernel_outcome_of_size_ne _ _ _ _ (by decide)]
  · rw [compute_gravitational_force_index_eq,
      kernel_outcome_of_size_ne _ _ _ _ (by decide)]
  · rw [compute_gravitational_force_index_eq,
      kernel_outcome_size_mismatch _ _ _ _ (by decide) (by decide)]

/-- C5, amended: when `m` is empty, no kernel writes an element of `F` and
the contents of `F` are what they were before the call, whether the call
succeeds or fails; and the call succeeds exactly when, in addition, `g` has
one element and `F` is empty. -/
theorem C5_empty_input_never_writes {R : Type} [Mul R] [Div R] (order : ArgOrder)
    (k : QuantityWrapper R → QuantityWrapper R → QuantityWrapper R → Outcome R)
    (hk : k = compute_gravitational_force_rac order ∨ k = compute_gravitational_force_iter ∨
      k = compute_gravitational_force_index)
    (m g F : QuantityWrapper R) (h0 : m.size = 0) :
    (k m g F).F = F ∧ (k m g F).writes = [] ∧
    ((k m g F).result = .ok () ↔ g.size = 1 ∧ F.size = 0) := by
  obtain ⟨idx, hko⟩ := kernel_is_outcome order k hk
  rw [hko]
  refine ⟨(kernel_outcome_empty idx m g F h0).1,
    (kernel_outcome_empty idx m g F h0).2, ?_⟩
  rw [kernel_outcome_ok_iff]
  constructor
  · rintro ⟨hg, hs, -⟩
    exact ⟨hg, by omega⟩
  · rintro ⟨hg, hF⟩
    exact ⟨hg, by omega, Or.inl h0⟩

/-- Witness of C5 (amended) on scenario 2 of the spec: empty `m` and `F`. -/
theorem C5_witness :
    empty_m.size = 0 ∧
    (compute_gravitational_force_rac .leftToRight empty_m scenario3_g empty_F).F = empty_F ∧
    (compute_gravitational_force_rac .leftToRight empty_m scenario3_g empty_F).writes = [] ∧
    (compute_gravitational_force_rac .leftToRight empty_m scenario3_g empty_F).result =
      .ok () := by
  have h := C5_empty_input_never_writes .leftToRight
    (compute_gravitational_force_rac .leftToRight) (Or.inl rfl)
    empty_m scenario3_g empty_F (by decide)
  exact ⟨by decide, h.1, h.2.1, h.2.2.2 ⟨by decide, by decide⟩⟩

/-- C6: failure is atomic.  Whenever one of the three kernels fails, with any
error, the contents of `F` are what they were before the call and no element
of `F` has been written. -/
theorem C6_failure_is_atomic {R : Type} [Mul R] [Div R] (order : ArgOrder)
    (k : QuantityWrapper R → QuantityWrapper R → QuantityWrapper R → Outcome R)
    (hk : k = compute_gravitational_force_rac order ∨ k = compute_gravitational_force_iter ∨
      k = compute_gravitational_force_index)
    (m g F : QuantityWrapper R) (e : Error) (hfail : (k m g F).result = .error e) :
    (k m g F).F = F ∧ (k m g F).writes = [] := by
  obtain ⟨idx, hko⟩ := kernel_is_outcome order k hk
  rw [hko] at hfail ⊢
  exact kernel_outcome_failure_frame idx m g F e hfail

theorem scenario6_index_result :
    (compute_gravitational_force_index scenario6_m scenario6_g scenario6_F).result =
      .error (.DimensionMismatch (some 0) si.length si.force) := by
  rw [compute_gravitational_force_index_eq]
  unfold kernel_outcome
  have hne : si.length ≠ si.force := by decide
  simp [scenario6_m, scenario6_g, scenario6_F, QuantityWrapper.size, hne]

/-- Witness of C6 on scenario 6 of the spec: the index variant fails on the
first write to an `F` whose unit is a length, and `F` is untouched. -/
theorem C6_witness :
    (compute_gravitational_force_index scenario6_m scenario6_g scenario6_F).result =
      .error (.DimensionMismatch (some 0) si.length si.force) ∧
    (compute_gravitational_force_index scenario6_m scenario6_g scenario6_F).F = scenario6_F ∧
    (compute_gravitational_force_index scenario6_m scenario6_g scenario6_F).writes = [] :=
  ⟨scenario6_index_result,
   C6_failure_is_atomic .leftToRight compute_gravitational_force_index (Or.inr (Or.inr rfl))
     scenario6_m scenario6_g scenario6_F _ scenario6_index_result⟩

theorem kernel_outcome_result {R : Type} [Mul R] [Div R] (idx : Option Nat)
    (m g F : QuantityWrapper R) :
    (kernel_outcome idx m g F).result =
      if g.size ≠ 1 then .error (.runtime_error "'g' needs to be size-one.")
      else if m.size ≠ F.size then
        .error (.runtime_error "Incompatible size between 'm' and 'F'.")
      else if m.size = 0 then .ok ()
      else if g.unit.dimension ≠ si.acceleration then
        .error (.DimensionMismatch none g.unit.dimension si.acceleration)
      else if m.unit.dimension ≠ si.mass then
        .error (.DimensionMismatch idx m.unit.dimension si.mass)
      else if F.unit.dimension ≠ si.force then
        .error (.DimensionMismatch (some 0) F.unit.dimension si.force)
      else .ok () := by
  by_cases hg : g.size = 1
  · obtain ⟨g0, hg0⟩ := (size_one_data g).1 hg
    unfold kernel_outcome
    simp only [hg0, hg, ne_eq, not_true_eq_false, if_false]
    split_ifs <;> rfl
  · rw [kernel_outcome_of_size_ne _ _ _ _ hg, if_pos hg]

/-- C7: with a `g` of size one and `m` and `F` of one common size `N ≥ 1`,
each kernel fails with a dimension mismatch if and only if the unit of `g` is
not an acceleration, or that of `m` is not a mass, or that of `F` is not a
force; and otherwise it succeeds. -/
theorem C7_dimension_mismatch_iff {R : Type} [Mul R] [Div R] (order : ArgOrder)
    (k : QuantityWrapper R → QuantityWrapper R → QuantityWrapper R → Outcome R)
    (hk : k = compute_gravitational_force_rac order ∨ k = compute_gravitational_force_iter ∨
      k = compute_gravitational_force_index)
    (m g F : QuantityWrapper R) (hg1 : g.size = 1) (hs : m.size = F.size)
    (hN : 1 ≤ m.size) :
    ((∃ i s r, (k m g F).result = .error (.DimensionMismatch i s r)) ↔
      (g.unit.dimension ≠ si.acceleration ∨ m.unit.dimension ≠ si.mass ∨
        F.unit.dimension ≠ si.force)) ∧
    (¬ (g.unit.dimension ≠ si.acceleration ∨ m.unit.dimension ≠ si.mass ∨
        F.unit.dimension ≠ si.force) → (k m g F).result = .ok ()) := by
  obtain ⟨idx, hko⟩ := kernel_is_outcome order k hk
  have h0 : m.size ≠ 0 := by omega
  rw [hko, kernel_outcome_result]
  simp only [hg1, hs, ne_eq, not_true_eq_false, if_false, hs ▸ h0]
  split_ifs <;> simp_all

/-- Witness of C7 on scenario 6 of the spec: masses in kilograms, an
acceleration, and an `F` whose unit is a length raise a dimension mismatch. -/
theorem C7_witness :
    scenario6_g.size = 1 ∧ scenario6_m.size = scenario6_F.size ∧ 1 ≤ scenario6_m.size ∧
    ∃ i s r, (compute_gravitational_force_iter scenario6_m scenario6_g scenario6_F).result =
      .error (.DimensionMismatch i s r) :=
  ⟨by decide, by decide, by decide,
   (C7_dimension_mismatch_iff .leftToRight compute_gravitational_force_iter
     (Or.inr (Or.inl rfl)) scenario6_m scenario6_g scenario6_F
     (by decide) (by decide) (by decide)).1.2 (Or.inr (Or.inr (by decide)))⟩

/-- C9: the size preconditions are checked in order.  When `g` is not of size
one and the sizes of `m` and `F` differ as well, each kernel reports the error
about `g`; and when `m` is empty, a kernel returns successfully only if both
size checks have passed. -/
theorem C9_size_checks_in_order {R : Type} [Mul R] [Div R] (order : ArgOrder)
    (k : QuantityWrapper R → QuantityWrapper R → QuantityWrapper R → Outcome R)
    (hk : k = compute_gravitational_force_rac order ∨ k = compute_gravitational_force_iter ∨
      k = compute_gravitational_force_index)
    (m g F : QuantityWrapper R) :
    (g.size ≠ 1 → m.size ≠ F.size →
      (k m g F).result = .error (.runtime_error "'g' needs to be size-one.")) ∧
    (m.size = 0 → (k m g F).result = .ok () → g.size = 1 ∧ m.size = F.size) := by
  obtain ⟨idx, hko⟩ := kernel_is_outcome order k hk
  rw [hko]
  constructor
  · intro hg _
    rw [kernel_outcome_of_size_ne _ _ _ _ hg]
  · intro _ hok
    obtain ⟨hg, hs, -⟩ := (kernel_outcome_ok_iff idx m g F).1 hok
    exact ⟨hg, hs⟩

theorem empty_rac_ok :
    (compute_gravitational_force_rac .rightToLeft empty_m scenario3_g empty_F).result =
      .ok () := by
  rw [compute_gravitational_force_rac_eq]
  exact (kernel_outcome_ok_iff _ _ _ _).2 ⟨by decide, by decide, Or.inl (by decide)⟩

/-- Witness of C9: a `g` of size two together with three masses and an output
buffer of one element gives the error about `g`; and the successful call on
the empty input has passed both size checks. -/
theorem C9_witness :
    scenario5_g.size ≠ 1 ∧ scenario3_m.size ≠ scenario5_F.size ∧
    (compute_gravitational_force_iter scenario3_m scenario5_g scenario5_F).result =
      .error (.runtime_error "'g' needs to be size-one.") ∧
    empty_m.size = 0 ∧
    (compute_gravitational_force_rac .rightToLeft empty_m scenario3_g empty_F).result =
      .ok () ∧
    scenario3_g.size = 1 ∧ empty_m.size = empty_F.size :=
  ⟨by decide, by decide,
   (C9_size_checks_in_order .leftToRight compute_gravitational_force_iter
     (Or.inr (Or.inl rfl)) scenario3_m scenario5_g scenario5_F).1 (by decide) (by decide),
   by decide, empty_rac_ok,
   (C9_size_checks_in_order .rightToLeft (compute_gravitational_force_rac .rightToLeft)
     (Or.inl rfl) empty_m scenario3_g empty_F).2 (by decide) empty_rac_ok⟩

/-- C10: determinism.  For each kernel, two successful calls with the same `m`
and `g` on output buffers of the same unit leave the same `F`, whatever the
two buffers held before; and running the kernel again on the `F` a successful
call has left succeeds and leaves that `F` as it is. -/
theorem C10_result_independent_of_previous_F {R : Type} [Mul R] [Div R] (order : ArgOrder)
    (k : QuantityWrapper R → QuantityWrapper R → QuantityWrapper R → Outcome R)
    (hk : k = compute_gravitational_force_rac order ∨ k = compute_gravitational_force_iter ∨
      k = compute_gravitational_force_index)
    (m g F1 F2 : QuantityWrapper R) (hu : F1.unit = F2.unit)
    (h1 : (k m g F1).result = .ok ()) (h2 : (k m g F2).result = .ok ()) :
    (k m g F1).F = (k m g F2).F ∧
    (k m g (k m g F1).F).result = .ok () ∧
    (k m g (k m g F1).F).F = (k m g F1).F := by
  obtain ⟨idx, hko⟩ := kernel_is_outcome order k hk
  simp only [hko] at h1 h2 ⊢
  obtain ⟨hg1, hs1, hr1⟩ := (kernel_outcome_ok_iff idx m g F1).1 h1
  obtain ⟨-, hs2, hr2⟩ := (kernel_outcome_ok_iff idx m g F2).1 h2
  obtain ⟨g0, hg0⟩ := (size_one_data g).1 hg1
  by_cases h0 : m.size = 0
  · have e1 := (kernel_outcome_empty idx m g F1 h0).1
    have e2 := (kernel_outcome_empty idx m g F2 h0).1
    have d1 : F1.data = [] := List.length_eq_zero.mp (by
      have : F1.size = 0 := by omega
      exact this)
    have d2 : F2.data = [] := List.length_eq_zero.mp (by
      have : F2.size = 0 := by omega
      exact this)
    have hF : F1 = F2 := by
      cases F1; cases F2; simp_all
    rw [e1, e2]
    exact ⟨hF, h1, e1⟩
  · rcases hr1 with h | ⟨hg, hm, hF1⟩
    · exact absurd h h0
    · have hF2 : F2.unit.dimension = si.force := hu ▸ hF1
      have v1 := kernel_outcome_ok_value idx m g F1 g0 hg0 hs1 h0 hg hm hF1
      have v2 := kernel_outcome_ok_value idx m g F2 g0 hg0 hs2 h0 hg hm hF2
      have v3 := kernel_outcome_ok_value idx m g
        ⟨m.data.map (fun x => (x * m.unit.scale) * (g0 * g.unit.scale) / F1.unit.scale),
          F1.unit⟩ g0 hg0 (by simp [QuantityWrapper.size]) h0 hg hm hF1
      rw [v1, v2]
      refine ⟨by simp [hu], ?_, ?_⟩
      · rw [v3]
      · rw [v3]

/-- Witness of C10 on scenario 3 of the spec, from two output buffers of
different contents. -/
theorem C10_witness :
    (compute_gravitational_force_index scenario3_m scenario3_g scenario3_F).F =
      (compute_gravitational_force_index scenario3_m scenario3_g
        ⟨[1, 2, 3], ⟨1, si.force⟩⟩).F ∧
    (compute_gravitational_force_index scenario3_m scenario3_g
      (compute_gravitational_force_index scenario3_m scenario3_g scenario3_F).F).result =
      .ok () ∧
    (compute_gravitational_force_index scenario3_m scenario3_g
      (compute_gravitational_force_index scenario3_m scenario3_g scenario3_F).F).F =
      (compute_gravitational_force_index scenario3_m scenario3_g scenario3_F).F :=
  C10_result_independent_of_previous_F .leftToRight compute_gravitational_force_index
    (Or.inr (Or.inr rfl)) scenario3_m scenario3_g scenario3_F ⟨[1, 2, 3], ⟨1, si.force⟩⟩
    rfl scenario3_index_ok
    (by
      rw [compute_gravitational_force_index_eq]
      exact (kernel_outcome_ok_iff _ _ _ _).2
        ⟨by decide, by decide, Or.inr ⟨by decide, by decide, by decide⟩⟩)

/-- Counterexample to C11 as stated.  With a `g` of size two the kernels fail
with `runtime_error("'g' needs to be size-one.")`, which is not the message
the spec words, and the same error is raised for an empty `g`: it does not
carry the offending size.  Likewise three masses against an output buffer of
one element fail with
`runtime_error("Incompatible size between 'm' and 'F'.")`, and two masses
against the same buffer give the same error. -/
theorem C11_counterexample :
    (compute_gravitational_force_rac .leftToRight scenario5_m scenario5_g scenario5_F).result =
      .error (.runtime_error "'g' needs to be size-one.") ∧
    (compute_gravitational_force_rac .leftToRight scenario5_m scenario5_g scenario5_F).result ≠
      .error (.runtime_error spec_message_g) ∧
    scenario5_g.size ≠ empty_g.size ∧
    (compute_gravitational_force_rac .leftToRight scenario5_m empty_g scenario5_F).result =
      (compute_gravitational_force_rac .leftToRight scenario5_m scenario5_g scenario5_F).result ∧
    (compute_gravitational_force_rac .leftToRight scenario3_m scenario3_g scenario5_F).result =
      .error (.runtime_error "Incompatible size between 'm' and 'F'.") ∧
    (compute_gravitational_force_rac .leftToRight scenario3_m scenario3_g scenario5_F).result ≠
      .error (.runtime_error spec_message_mF) ∧
    scenario3_m.size ≠ scenario6_m.size ∧
    (compute_gravitational_force_rac .leftToRight scenario6_m scenario3_g scenario5_F).result =
      (compute_gravitational_force_rac .leftToRight scenario3_m scenario3_g scenario5_F).result := by
  have e1 : (compute_gravitational_force_rac .leftToRight scenario5_m scenario5_g
      scenario5_F).result = .error (.runtime_error "'g' needs to be size-one.") := by
    rw [compute_gravitational_force_rac_eq, kernel_outcome_of_size_ne _ _ _ _ (by decide)]
  have e2 : (compute_gravitational_force_rac .leftToRight scenario5_m empty_g
      scenario5_F).result = .error (.runtime_error "'g' needs to be size-one.") := by
    rw [compute_gravitational_force_rac_eq, kernel_outcome_of_size_ne _ _ _ _ (by decide)]
  have e3 : (compute_gravitational_force_rac .leftToRight scenario3_m scenario3_g
      scenario5_F).result =
      .error (.runtime_error "Incompatible size between 'm' and 'F'.") := by
    rw [compute_gravitational_force_rac_eq,
      kernel_outcome_size_mismatch _ _ _ _ (by decide) (by decide)]
  have e4 : (compute_gravitational_force_rac .leftToRight scenario6_m scenario3_g
      scenario5_F).result =
      .error (.runtime_error "Incompatible size between 'm' and 'F'.") := by
    rw [compute_gravitational_force_rac_eq,
      kernel_outcome_size_mismatch _ _ _ _ (by decide) (by decide)]
  refine ⟨e1, ?_, by decide, by rw [e1, e2], e3, ?_, by decide, by rw [e3, e4]⟩
  · rw [e1]
    intro h
    injection h with h
    injection h with h
    revert h
    decide
  · rw [e3]
    intro h
    injection h with h
    injection h with h
    revert h
    decide

/-- C11, amended: the errors raised on the size preconditions are
`std::runtime_error` values with fixed messages.  A `g` that is not of size
one fails with `runtime_error("'g' needs to be size-one.")`; with a `g` of
size one, different sizes of `m` and `F` fail with
`runtime_error("Incompatible size between 'm' and 'F'.")`; and the error is the
same whatever the offending sizes are: it does not carry them. -/
theorem C11_size_errors_are_fixed_runtime_errors {R : Type} [Mul R] [Div R]
    (order : ArgOrder)
    (k : QuantityWrapper R → QuantityWrapper R → QuantityWrapper R → Outcome R)
    (hk : k = compute_gravitational_force_rac order ∨ k = compute_gravitational_force_iter ∨
      k = compute_gravitational_force_index)
    (m g F m2 g2 F2 : QuantityWrapper R) :
    (g.size ≠ 1 →
      (k m g F).result = .error (.runtime_error "'g' needs to be size-one.")) ∧
    (g.size = 1 → m.size ≠ F.size →
      (k m g F).result =
        .error (.runtime_error "Incompatible size between 'm' and 'F'.")) ∧
    (g.size ≠ 1 → g2.size ≠ 1 → (k m g F).result = (k m2 g2 F2).result) ∧
    (g.size = 1 → m.size ≠ F.size → g2.size = 1 → m2.size ≠ F2.size →
      (k m g F).result = (k m2 g2 F2).result) := by
  obtain ⟨idx, hko⟩ := kernel_is_outcome order k hk
  simp only [hko]
  refine ⟨?_, ?_, ?_, ?_⟩
  · intro hg
    rw [kernel_outcome_of_size_ne _ _ _ _ hg]
  · intro hg hs
    rw [kernel_outcome_size_mismatch _ _ _ _ hg hs]
  · intro hg hg2
    rw [kernel_outcome_of_size_ne _ _ _ _ hg, kernel_outcome_of_size_ne _ _ _ _ hg2]
  · intro hg hs hg2 hs2
    rw [kernel_outcome_size_mismatch _ _ _ _ hg hs,
      kernel_outcome_size_mismatch _ _ _ _ hg2 hs2]

/-- Witness of C11 (amended) on scenario 5 of the spec and on three masses
against an output buffer of one element. -/
theorem C11_witness :
    scenario5_g.size ≠ 1 ∧
    (compute_gravitational_force_index scenario5_m scenario5_g scenario5_F).result =
      .error (.runtime_error "'g' needs to be size-one.") ∧
    scenario3_g.size = 1 ∧ scenario3_m.size ≠ scenario5_F.size ∧
    (compute_gravitational_force_index scenario3_m scenario3_g scenario5_F).result =
      .error (.runtime_error "Incompatible size between 'm' and 'F'.") :=
  ⟨by decide,
   (C11_size_errors_are_fixed_runtime_errors .leftToRight compute_gravitational_force_index
     (Or.inr (Or.inr rfl)) scenario5_m scenario5_g scenario5_F
     scenario5_m scenario5_g scenario5_F).1 (by decide),
   by decide, by decide,
   (C11_size_errors_are_fixed_runtime_errors .leftToRight compute_gravitational_force_index
     (Or.inr (Or.inr rfl)) scenario3_m scenario3_g scenario5_F
     scenario3_m scenario3_g scenario5_F).2.1 (by decide) (by decide)⟩

/-- C12: dimensional correctness.  The product of the dimension of a mass and
that of an acceleration (the exponents add) is the dimension of a force,
`mass^1 length^1 time^-2`; and after a successful call, for every index `i`
the unit of `F` is a force and the value stored in `F[i]` is the rescaled
magnitude of the product of `m[i]` read as a mass and `g` read as an
acceleration, a scalar of that product dimension. -/
theorem C12_written_value_is_mass_times_acceleration {R : Type} [Mul R] [Div R]
    (order : ArgOrder)
    (k : QuantityWrapper R → QuantityWrapper R → QuantityWrapper R → Outcome R)
    (hk : k = compute_gravitational_force_rac order ∨ k = compute_gravitational_force_iter ∨
      k = compute_gravitational_force_index)
    (m g F : QuantityWrapper R) (hok : (k m g F).result = .ok ()) :
    Dimension.mul si.mass si.acceleration = si.force ∧
    si.force = ⟨1, 1, -2, 0, 0, 0, 0⟩ ∧
    ∀ (i : Nat), i < m.size →
      (k m g F).F.unit.dimension = si.force ∧
      ∃ (mi : Mass R) (gq : Acceleration R),
        m.get_at si.mass i = .ok mi ∧ g.get si.acceleration = .ok gq ∧
        (k m g F).F.data[i]? = some ((Quantity.mul mi gq).value / F.unit.scale) := by
  refine ⟨mass_mul_acceleration, rfl, ?_⟩
  intro i hi
  obtain ⟨idx, hko⟩ := kernel_is_outcome order k hk
  rw [hko] at hok ⊢
  obtain ⟨hg1, hs, hrest⟩ := (kernel_outcome_ok_iff idx m g F).1 hok
  obtain ⟨g0, hg0⟩ := (size_one_data g).1 hg1
  have h0 : m.size ≠ 0 := by omega
  have hi2 : i < m.data.length := hi
  rcases hrest with h | ⟨hg, hm, hF⟩
  · exact absurd h h0
  · rw [kernel_outcome_ok_value idx m g F g0 hg0 hs h0 hg hm hF]
    refine ⟨hF, ⟨m.data[i] * m.unit.scale⟩, ⟨g0 * g.unit.scale⟩, ?_, ?_, ?_⟩
    · simp [QuantityWrapper.get_at, hm, List.getElem?_eq_getElem hi2]
    · simp [QuantityWrapper.get, hg, hg0]
    · simp [List.getElem?_eq_getElem hi2, Quantity.mul]

/-- Witness of C12 on scenario 3 of the spec, at the index `2`. -/
theorem C12_witness :
    (compute_gravitational_force_index scenario3_m scenario3_g scenario3_F).result = .ok () ∧
    (compute_gravitational_force_index scenario3_m scenario3_g scenario3_F).F.unit.dimension =
      si.force ∧
    ∃ (mi : Mass ℚ) (gq : Acceleration ℚ),
      scenario3_m.get_at si.mass 2 = .ok mi ∧ scenario3_g.get si.acceleration = .ok gq ∧
      (compute_gravitational_force_index scenario3_m scenario3_g scenario3_F).F.data[2]? =
        some ((Quantity.mul mi gq).value / scenario3_F.unit.scale) :=
  ⟨scenario3_index_ok,
   (C12_written_value_is_mass_times_acceleration .leftToRight
     compute_gravitational_force_index (Or.inr (Or.inr rfl))
     scenario3_m scenario3_g scenario3_F scenario3_index_ok).2.2 2 (by decide)⟩

/-- C13: the dimension of `g` is checked only when `g` is read, after both
size checks and after the return on the empty input.  For a `g` of size one
whose unit is not an acceleration: when the sizes of `m` and `F` differ, each
kernel fails with the size error about `m` and `F` and `F` is untouched; when
`m` and `F` are both empty, each kernel succeeds; and when `m` and `F` have
one common size `N ≥ 1`, each kernel fails with the dimension mismatch of the
scalar read of `g`. -/
theorem C13_g_dimension_checked_after_size_checks {R : Type} [Mul R] [Div R]
    (order : ArgOrder)
    (k : QuantityWrapper R → QuantityWrapper R → QuantityWrapper R → Outcome R)
    (hk : k = compute_gravitational_force_rac order ∨ k = compute_gravitational_force_iter ∨
      k = compute_gravitational_force_index)
    (m g F : QuantityWrapper R) (hg1 : g.size = 1)
    (hgd : g.unit.dimension ≠ si.acceleration) :
    (m.size ≠ F.size →
      k m g F = ⟨.error (.runtime_error "Incompatible size between 'm' and 'F'."), F, []⟩) ∧
    (m.size = F.size → m.size = 0 → (k m g F).result = .ok ()) ∧
    (m.size = F.size → m.size ≠ 0 →
      (k m g F).result =
        .error (.DimensionMismatch none g.unit.dimension si.acceleration)) := by
  obtain ⟨idx, hko⟩ := kernel_is_outcome order k hk
  simp only [hko]
  refine ⟨?_, ?_, ?_⟩
  · intro hs
    rw [kernel_outcome_size_mismatch _ _ _ _ hg1 hs]
  · intro hs h0
    exact (kernel_outcome_ok_iff idx m g F).2 ⟨hg1, hs, Or.inl h0⟩
  · intro hs h0
    rw [kernel_outcome_result]
    simp [hg1, hs, hs ▸ h0, hgd]

/-- Witness of C13: a `g` of one element whose unit is a length, three masses
and an output buffer of one element. -/
theorem C13_witness :
    length_g.size = 1 ∧ length_g.unit.dimension ≠ si.acceleration ∧
    scenario3_m.size ≠ scenario5_F.size ∧
    compute_gravitational_force_iter scenario3_m length_g scenario5_F =
      ⟨.error (.runtime_error "Incompatible size between 'm' and 'F'."), scenario5_F, []⟩ :=
  ⟨by decide, by decide, by decide,
   (C13_g_dimension_checked_after_size_checks .leftToRight compute_gravitational_force_iter
     (Or.inr (Or.inl rfl)) scenario3_m length_g scenario5_F (by decide) (by decide)).1
     (by decide)⟩

/-- C16: on the empty input no dimension is checked.  With a `g` of size one
and empty `m` and `F`, each kernel returns successfully without a write,
whatever the units of `g`, `m` and `F` are. -/
theorem C16_empty_input_skips_dimension_checks {R : Type} [Mul R] [Div R]
    (order : ArgOrder)
    (k : QuantityWrapper R → QuantityWrapper R → QuantityWrapper R → Outcome R)
    (hk : k = compute_gravitational_force_rac order ∨ k = compute_gravitational_force_iter ∨
      k = compute_gravitational_force_index)
    (m g F : QuantityWrapper R) (hg1 : g.size = 1) (hm0 : m.size = 0) (hF0 : F.size = 0) :
    k m g F = ⟨.ok (), F, []⟩ := by
  rcases hk with h | h | h
  · rw [h]; unfold compute_gravitational_force_rac
    rw [if_neg (not_not.mpr hg1), if_neg (by omega), if_pos hm0]
  · rw [h]; unfold compute_gravitational_force_iter
    rw [if_neg (not_not.mpr hg1), if_neg (by omega), if_pos hm0]
  · rw [h]; unfold compute_gravitational_force_index
    rw [if_neg (not_not.mpr hg1), if_neg (by omega), if_pos hm0]

/-- Witness of C16: a `g` of one element and empty `m` and `F`, all three
with a length as unit. -/
theorem C16_witness :
    length_g.size = 1 ∧ empty_length.size = 0 ∧
    length_g.unit.dimension ≠ si.acceleration ∧ empty_length.unit.dimension ≠ si.mass ∧
    empty_length.unit.dimension ≠ si.force ∧
    compute_gravitational_force_index empty_length length_g empty_length =
      ⟨.ok (), empty_length, []⟩ :=
  ⟨by decide, by decide, by decide, by decide, by decide,
   C16_empty_input_skips_dimension_checks .leftToRight compute_gravitational_force_index
     (Or.inr (Or.inr rfl)) empty_length length_g empty_length
     (by decide) (by decide) (by decide)⟩

/-- The three shapes of the outcome of a kernel: a failure that is not an
out-of-range access and leaves `F` untouched, the return on the empty input,
or a complete pass over the `N` elements. -/
theorem kernel_outcome_cases {R : Type} [Mul R] [Div R] (idx : Option Nat)
    (m g F : QuantityWrapper R) :
    (∃ e, e ≠ Error.OutOfRange ∧ kernel_outcome idx m g F = ⟨.error e, F, []⟩) ∨
    (m.size = 0 ∧ kernel_outcome idx m g F = ⟨.ok (), F, []⟩) ∨
    (∃ g0, g.data = [g0] ∧ m.size = F.size ∧
      kernel_outcome idx m g F =
        ⟨.ok (),
         ⟨m.data.map (fun x => (x * m.unit.scale) * (g0 * g.unit.scale) / F.unit.scale),
          F.unit⟩,
         List.range m.size⟩) := by
  by_cases hg1 : g.size = 1
  swap
  · left
    exact ⟨_, by simp, kernel_outcome_of_size_ne _ _ _ _ hg1⟩
  obtain ⟨g0, hg0⟩ := (size_one_data g).1 hg1
  by_cases hs : m.size = F.size
  swap
  · left
    exact ⟨_, by simp, kernel_outcome_size_mismatch _ _ _ _ hg1 hs⟩
  by_cases h0 : m.size = 0
  · right; left
    refine ⟨h0, ?_⟩
    unfold kernel_outcome
    simp [hg0, hs, hs ▸ h0]
  have h0F : ¬ F.size = 0 := hs ▸ h0
  by_cases hg : g.unit.dimension = si.acceleration
  swap
  · left
    refine ⟨.DimensionMismatch none g.unit.dimension si.acceleration, by simp, ?_⟩
    unfold kernel_outcome
    simp [hg0, hs, h0F, hg]
  by_cases hm : m.unit.dimension = si.mass
  · by_cases hF : F.unit.dimension = si.force
    · right; right
      exact ⟨g0, hg0, hs, kernel_outcome_ok_value idx m g F g0 hg0 hs h0 hg hm hF⟩
    · left
      refine ⟨.DimensionMismatch (some 0) F.unit.dimension si.force, by simp, ?_⟩
      unfold kernel_outcome
      simp [hg0, hs, h0F, hg, hm, hF]
  · left
    refine ⟨.DimensionMismatch idx m.unit.dimension si.mass, by simp, ?_⟩
    unfold kernel_outcome
    simp [hg0, hs, h0F, hg, hm]

theorem wrong_g_iter_result :
    (compute_gravitational_force_iter scenario3_m length_g scenario3_F).result =
      .error (.DimensionMismatch none si.length si.acceleration) := by
  rw [compute_gravitational_force_iter_eq, kernel_outcome_result]
  have hne : si.length ≠ si.acceleration := by decide
  simp [scenario3_m, length_g, scenario3_F, QuantityWrapper.size, hne]

/-- Counterexample to C14 as stated: three masses, a `g` of one element whose
unit is a length and an output buffer of three elements pass both size checks
with `N = 3`, but the iterator variant fails at the scalar read of `g`, before
its output cursor exists: the cursor is dereferenced not three times but
never. -/
theorem C14_counterexample :
    length_g.size = 1 ∧ scenario3_m.size = scenario3_F.size ∧ scenario3_m.size = 3 ∧
    (compute_gravitational_force_iter scenario3_m length_g scenario3_F).result =
      .error (.DimensionMismatch none si.length si.acceleration) ∧
    (compute_gravitational_force_iter scenario3_m length_g scenario3_F).writes = [] ∧
    (compute_gravitational_force_iter scenario3_m length_g scenario3_F).writes ≠
      List.range scenario3_m.size := by
  have hw : (compute_gravitational_force_iter scenario3_m length_g scenario3_F).writes
      = [] := by
    have h := wrong_g_iter_result
    rw [compute_gravitational_force_iter_eq] at h ⊢
    exact (kernel_outcome_failure_frame _ _ _ _ _ h).2
  refine ⟨by decide, by decide, by decide, wrong_g_iter_result, hw, ?_⟩
  rw [hw]
  decide

/-- C14, amended: no access of a kernel is out of range.  No call of a kernel
ends with `OutOfRange`, the scalar read of a `g` of size one is in range,
and every write of `F` is at an index below the sizes of `m` and of `F`.  On
a successful call each variant (the iterator variant through its output
cursor) writes exactly `N` times, at the positions `0, .., N-1` in this order;
on a failed call it writes nothing. -/
theorem C14_no_access_out_of_range {R : Type} [Mul R] [Div R] (order : ArgOrder)
    (k : QuantityWrapper R → QuantityWrapper R → QuantityWrapper R → Outcome R)
    (hk : k = compute_gravitational_force_rac order ∨ k = compute_gravitational_force_iter ∨
      k = compute_gravitational_force_index)
    (m g F : QuantityWrapper R) :
    (k m g F).result ≠ .error .OutOfRange ∧
    (g.size = 1 → g.get si.acceleration ≠ .error .OutOfRange) ∧
    (∀ i ∈ (k m g F).writes, i < m.size ∧ i < F.size) ∧
    ((k m g F).result = .ok () → (k m g F).writes = List.range m.size) ∧
    (∀ e, (k m g F).result = .error e → (k m g F).writes = []) := by
  obtain ⟨idx, hko⟩ := kernel_is_outcome order k hk
  simp only [hko]
  have hget : g.size = 1 → g.get si.acceleration ≠ .error .OutOfRange := by
    intro hg1
    obtain ⟨g0, hg0⟩ := (size_one_data g).1 hg1
    unfold QuantityWrapper.get
    split_ifs <;> simp [hg0]
  rcases kernel_outcome_cases idx m g F with ⟨e, he, h⟩ | ⟨h0, h⟩ | ⟨g0, -, hs, h⟩
  · rw [h]
    refine ⟨?_, hget, by simp, by simp, by simp⟩
    intro hc
    injection hc with hc
    exact he hc
  · rw [h]
    refine ⟨by simp, hget, by simp, ?_, by simp⟩
    intro _
    simp [h0]
  · rw [h]
    refine ⟨by simp, hget, ?_, by simp, by simp⟩
    intro i hi
    have : i < m.size := List.mem_range.mp hi
    exact ⟨this, by omega⟩

/-- Witness of C14 (amended) on scenario 3 of the spec: the successful call
writes at `0, 1, 2`. -/
theorem C14_witness :
    (compute_gravitational_force_iter scenario3_m scenario3_g scenario3_F).result ≠
      .error .OutOfRange ∧
    (compute_gravitational_force_index scenario3_m scenario3_g scenario3_F).result = .ok () ∧
    (compute_gravitational_force_index scenario3_m scenario3_g scenario3_F).writes =
      List.range scenario3_m.size :=
  ⟨(C14_no_access_out_of_range .leftToRight compute_gravitational_force_iter
     (Or.inr (Or.inl rfl)) scenario3_m scenario3_g scenario3_F).1,
   scenario3_index_ok,
   (C14_no_access_out_of_range .leftToRight compute_gravitational_force_index
     (Or.inr (Or.inr rfl)) scenario3_m scenario3_g scenario3_F).2.2.2.1 scenario3_index_ok⟩

/-- C15: frame.  Whether a call of a kernel succeeds or fails, the unit
descriptor and the size of `F` are what they were before the call; an element
of `F` that was not written has its value of before the call, every write is
at an index below `N = m.size()`, and so the elements of `F` at the indices
from `N` on are unchanged.  (The buffers `m` and `g` are passed by reference
to const and only read; the kernels of the embedding accordingly return no new
state for them.) -/
theorem C15_frame_of_a_call {R : Type} [Mul R] [Div R] (order : ArgOrder)
    (k : QuantityWrapper R → QuantityWrapper R → QuantityWrapper R → Outcome R)
    (hk : k = compute_gravitational_force_rac order ∨ k = compute_gravitational_force_iter ∨
      k = compute_gravitational_force_index)
    (m g F : QuantityWrapper R) :
    (k m g F).F.unit = F.unit ∧
    (k m g F).F.size = F.size ∧
    (∀ i, i ∉ (k m g F).writes → (k m g F).F.data[i]? = F.data[i]?) ∧
    (∀ i ∈ (k m g F).writes, i < m.size) ∧
    (∀ i, m.size ≤ i → (k m g F).F.data[i]? = F.data[i]?) := by
  obtain ⟨idx, hko⟩ := kernel_is_outcome order k hk
  simp only [hko]
  rcases kernel_outcome_cases idx m g F with ⟨e, -, h⟩ | ⟨-, h⟩ | ⟨g0, -, hs, h⟩
  · rw [h]
    simp
  · rw [h]
    simp
  · rw [h]
    have hsz : m.data.length = F.data.length := hs
    have key : ∀ i, m.size ≤ i →
        (m.data.map (fun x => (x * m.unit.scale) * (g0 * g.unit.scale) / F.unit.scale))[i]?
          = F.data[i]? := by
      intro i hi
      have hi2 : m.data.length ≤ i := hi
      rw [List.getElem?_eq_none (by simpa using hi2), List.getElem?_eq_none (by omega)]
    refine ⟨rfl, by simp [QuantityWrapper.size, hsz], ?_, ?_, key⟩
    · intro i hi
      have : m.size ≤ i := by
        by_contra hc
        exact hi (List.mem_range.mpr (by omega))
      exact key i this
    · intro i hi
      exact List.mem_range.mp hi

/-- Witness of C15 on scenario 6 of the spec (a failing call) and on
scenario 3 (a successful call): in both the unit and the size of `F` are kept. -/
theorem C15_witness :
    (compute_gravitational_force_index scenario6_m scenario6_g scenario6_F).F.unit =
      scenario6_F.unit ∧
    (compute_gravitational_force_index scenario6_m scenario6_g scenario6_F).F.size =
      scenario6_F.size ∧
    (compute_gravitational_force_rac .leftToRight scenario3_m scenario3_g scenario3_F).F.unit =
      scenario3_F.unit ∧
    (compute_gravitational_force_rac .leftToRight scenario3_m scenario3_g scenario3_F).F.size =
      scenario3_F.size :=
  ⟨(C15_frame_of_a_call .leftToRight compute_gravitational_force_index
     (Or.inr (Or.inr rfl)) scenario6_m scenario6_g scenario6_F).1,
   (C15_frame_of_a_call .leftToRight compute_gravitational_force_index
     (Or.inr (Or.inr rfl)) scenario6_m scenario6_g scenario6_F).2.1,
   (C15_frame_of_a_call .leftToRight (compute_gravitational_force_rac .leftToRight)
     (Or.inl rfl) scenario3_m scenario3_g scenario3_F).1,
   (C15_frame_of_a_call .leftToRight (compute_gravitational_force_rac .leftToRight)
     (Or.inl rfl) scenario3_m scenario3_g scenario3_F).2.1⟩
